import Mathlib

/-!
Verification of the connection-resolution and failure-classification layer of
the Scalr demo application (src/app/scalr.py): the configuration resolver
(ConnectionInfo), the per-role connection descriptor
(DBConnectionInformation) with its cursor acquisition, failure
classification, read, and insert operations, and the replication-status
check.  External collaborators — the MySQLdb client and DNS resolution — are
modelled as explicit oracles; a concrete state-machine model of the MySQL
server is provided for claims about issued statements and schema state.
-/

namespace Scalr

set_option maxRecDepth 8000

/-- Decidable equality of Except values, used to evaluate the embedded
operations on concrete inputs. -/
instance {ε α : Type} [DecidableEq ε] [DecidableEq α] : DecidableEq (Except ε α) := fun x y =>
  match x, y with
  | Except.ok a, Except.ok b =>
      if h : a = b then isTrue (by rw [h]) else isFalse (fun hh => h (Except.ok.inj hh))
  | Except.error a, Except.error b =>
      if h : a = b then isTrue (by rw [h]) else isFalse (fun hh => h (Except.error.inj hh))
  | Except.ok _, Except.error _ => isFalse (fun hh => Except.noConfusion hh)
  | Except.error _, Except.ok _ => isFalse (fun hh => Except.noConfusion hh)

/-- Constant VALUE_LENGTH = 200 from the source (line 16). -/
def VALUE_LENGTH : Nat := 200

/-- Constant MYSQL_ERROR_CODE_UNKNOWN_DB = 1049 (line 18). -/
def MYSQL_ERROR_CODE_UNKNOWN_DB : Nat := 1049

/-- Constant MYSQL_ERROR_CODE_NO_HOST = 2005 (line 19). -/
def MYSQL_ERROR_CODE_NO_HOST : Nat := 2005

/-- Constant MYSQL_ERROR_CODE_ACCESS_DENIED = 1045 (line 20). -/
def MYSQL_ERROR_CODE_ACCESS_DENIED : Nat := 1045

/-- Model of socket.gaierror: its args tuple is (errno, strerror); the source
reads index 1, the error string. -/
structure GaiError where
  errno : Int
  strerror : String
deriving Repr, DecidableEq

/-- DNS oracle: the outcome of socket.gethostbyname_ex(h)[2] for each
hostname — either the address list or a gaierror. -/
def DnsOracle : Type := String → Except GaiError (List String)

/-- Model of MySQLdb.OperationalError: its args tuple starts with the numeric
status code; the source reads e[0]. -/
structure OperationalErr where
  code : Nat
  msg : String
deriving Repr, DecidableEq

/-- The SQL statements the source issues, as abstract syntax.  createDatabase
stands for CREATE DATABASE IF NOT EXISTS ScalrTest, useScalrTest for USE
ScalrTest, createTable w for CREATE TABLE IF NOT EXISTS ScalrValues (val
CHAR(w) CHARACTER SET utf8 COLLATE utf8_bin), selectValues for SELECT val
FROM ScalrValues, insertValue v for INSERT INTO ScalrValues (val) VALUES
(%s) with parameter v already substituted, and commit for COMMIT. -/
inductive Statement where
  | createDatabase
  | useScalrTest
  | createTable (width : Nat)
  | selectValues
  | insertValue (v : String)
  | commit
deriving Repr, DecidableEq

/-- Abstract interface of the MySQLdb client, with sigma the state of a
connection/cursor: connect takes host, user and password and either fails
with an OperationalError or yields a cursor state; execute runs one
statement; fetchall returns the rows (tuples of column values) of the last
result set. -/
structure MySQLClient (σ : Type) where
  connect : String → String → String → Except OperationalErr σ
  execute : σ → Statement → Except OperationalErr σ
  fetchall : σ → List (List String)

/-- Per-role connection descriptor DBConnectionInformation (lines 115-121):
hostname, username, password and the role flag master. -/
structure DBConnectionInformation where
  hostname : String
  username : String
  password : String
  master : Bool
deriving Repr, DecidableEq

/-- The errors a descriptor operation can raise: either a raw
MySQLdb.OperationalError propagating unchanged, or the source's
NoConnectionEstablished exception carrying the descriptor and a message
(lines 107-113). -/
inductive DBError where
  | operational (e : OperationalErr)
  | noConnectionEstablished (info : DBConnectionInformation) (error : String)
deriving Repr, DecidableEq

/-- The lexicographic string order used by sorted in the source, stated on
the character lists; by String.le_iff_toList_le this is exactly the order of
the String LinearOrder. -/
def strLe (a b : String) : Prop := a.toList ≤ b.toList

instance : DecidableRel strLe := fun a b => inferInstanceAs (Decidable (a.toList ≤ b.toList))

instance : IsTrans String strLe := ⟨fun _ _ _ => le_trans⟩

instance : IsTotal String strLe := ⟨fun a b => le_total a.toList b.toList⟩

instance : IsAntisymm String strLe := ⟨fun _ _ h1 h2 => String.toList_inj.mp (le_antisymm h1 h2)⟩

/-- Embeds DBConnectionInformation.ips (lines 122-126): resolve the hostname,
join the sorted address list with commas; on a gaierror return the string
"Resolution error: " followed by the error text instead of raising. -/
def DBConnectionInformation.ips (dns : DnsOracle) (self : DBConnectionInformation) : String :=
  match dns self.hostname with
  | Except.ok addrs => String.intercalate "," (List.insertionSort strLe addrs)
  | Except.error e => "Resolution error: " ++ e.strerror

/-- Embeds DBConnectionInformation.get_cursor (lines 128-148): connect, and on
an OperationalError classify by status code — 2005 first, then 1045, then the
catch-all carrying the raw code — raising NoConnectionEstablished; on success
run the provisioning statements when the role is master, otherwise only USE;
errors from those statements propagate unclassified. -/
def DBConnectionInformation.get_cursor {σ : Type} (cl : MySQLClient σ)
    (self : DBConnectionInformation) : Except DBError σ :=
  match cl.connect self.hostname self.username self.password with
  | Except.error e =>
      if e.code = MYSQL_ERROR_CODE_NO_HOST then
        Except.error (DBError.noConnectionEstablished self
          ("The host [" ++ self.hostname ++ "] does not exist."))
      else if e.code = MYSQL_ERROR_CODE_ACCESS_DENIED then
        Except.error (DBError.noConnectionEstablished self
          ("The username [" ++ self.username ++ "] or password [" ++
            self.password ++ "] is incorrect."))
      else
        Except.error (DBError.noConnectionEstablished self
          ("An error occured: Code " ++ toString e.code))
  | Except.ok connection =>
      if self.master then
        match cl.execute connection Statement.createDatabase with
        | Except.error e => Except.error (DBError.operational e)
        | Except.ok c1 =>
          match cl.execute c1 Statement.useScalrTest with
          | Except.error e => Except.error (DBError.operational e)
          | Except.ok c2 =>
            match cl.execute c2 (Statement.createTable VALUE_LENGTH) with
            | Except.error e => Except.error (DBError.operational e)
            | Except.ok c3 => Except.ok c3
      else
        match cl.execute connection Statement.useScalrTest with
        | Except.error e => Except.error (DBError.operational e)
        | Except.ok c1 => Except.ok c1

/-- Embeds DBConnectionInformation.get_values (lines 150-159): run get_cursor
and the SELECT inside a try block; an OperationalError with code 1049 yields
the empty list, any other error re-raises; on success return column 0 of
every fetched row. -/
def DBConnectionInformation.get_values {σ : Type} (cl : MySQLClient σ)
    (self : DBConnectionInformation) : Except DBError (List String) :=
  let attempt : Except DBError σ :=
    match self.get_cursor cl with
    | Except.error e => Except.error e
    | Except.ok cursor =>
      match cl.execute cursor Statement.selectValues with
      | Except.error e => Except.error (DBError.operational e)
      | Except.ok c => Except.ok c
  match attempt with
  | Except.error (DBError.operational e) =>
      if e.code = MYSQL_ERROR_CODE_UNKNOWN_DB then Except.ok []
      else Except.error (DBError.operational e)
  | Except.error e => Except.error e
  | Except.ok cursor => Except.ok ((cl.fetchall cursor).map (fun row => row.headD ""))

/-- Embeds DBConnectionInformation.insert (lines 161-164): get a cursor,
execute the INSERT with the value truncated to VALUE_LENGTH characters, then
execute COMMIT; nothing is caught. -/
def DBConnectionInformation.insert {σ : Type} (cl : MySQLClient σ)
    (self : DBConnectionInformation) (value : String) : Except DBError σ :=
  match self.get_cursor cl with
  | Except.error e => Except.error e
  | Except.ok cursor =>
    match cl.execute cursor (Statement.insertValue (value.take VALUE_LENGTH)) with
    | Except.error e => Except.error (DBError.operational e)
    | Except.ok c1 =>
      match cl.execute c1 Statement.commit with
      | Except.error e => Except.error (DBError.operational e)
      | Except.ok c2 => Except.ok c2

/-- The NoConnectionInfo exception (lines 102-105), raised when configuration
is unavailable. -/
inductive NoConnectionInfo where
  | mk
deriving Repr, DecidableEq

/-- Configuration resolver ConnectionInfo (lines 167-177).  The fields
masterHost and slaveHost carry the source's attributes _master and
_slave. -/
structure ConnectionInfo where
  username : String
  password : String
  masterHost : String
  slaveHost : String
deriving Repr, DecidableEq

/-- Embeds ConnectionInfo.__init__ (lines 168-177): read the four files
mysql-username, mysql-password, mysql-master, mysql-slave in that order from
the configuration source (an oracle from file name to contents, none when
opening raises IOError), stripping whitespace from each; any missing file
raises NoConnectionInfo. -/
def ConnectionInfo.init (source : String → Option String) :
    Except NoConnectionInfo ConnectionInfo :=
  match source "mysql-username" with
  | none => Except.error NoConnectionInfo.mk
  | some u =>
    match source "mysql-password" with
    | none => Except.error NoConnectionInfo.mk
    | some p =>
      match source "mysql-master" with
      | none => Except.error NoConnectionInfo.mk
      | some m =>
        match source "mysql-slave" with
        | none => Except.error NoConnectionInfo.mk
        | some s =>
          Except.ok { username := u.trim, password := p.trim,
                      masterHost := m.trim, slaveHost := s.trim }

/-- Embeds ConnectionInfo._connection_information (lines 179-181): build a
descriptor from the role-selected hostname, the shared credentials, and the
role flag. -/
def ConnectionInfo.connection_information (self : ConnectionInfo) (master : Bool) :
    DBConnectionInformation :=
  { hostname := if master then self.masterHost else self.slaveHost
    username := self.username
    password := self.password
    master := master }

/-- Embeds the property ConnectionInfo.master (lines 183-185): each access
constructs a fresh DBConnectionInformation with the master role. -/
def ConnectionInfo.master (self : ConnectionInfo) : DBConnectionInformation :=
  self.connection_information true

/-- Embeds the property ConnectionInfo.slave (lines 187-189): each access
constructs a fresh DBConnectionInformation with the replica role. -/
def ConnectionInfo.slave (self : ConnectionInfo) : DBConnectionInformation :=
  self.connection_information false

/-- A Python 2 bound-method value as compared by the equality operators: the
identity of the receiver object together with the underlying function.  Two
bound methods are unequal whenever their receivers are distinct objects
(DBConnectionInformation defines no custom equality, so receiver comparison
is object identity). -/
structure BoundMethod where
  receiverId : Nat
  funcName : String
deriving Repr, DecidableEq

/-- Embeds ConnectionInfo.replicating (lines 191-192), which is literally
the expression: self.master.ips != self.slave.ips.  The two property
accesses each construct a fresh DBConnectionInformation object (allocation
identities freshId and freshId+1), and the expression compares the two
bound-method objects named ips of those receivers — the methods are never
called, since the source has no call parentheses on either side. -/
def ConnectionInfo.replicating (self : ConnectionInfo) (freshId : Nat) : Bool :=
  let masterReceiver := (self.master, freshId)
  let slaveReceiver := (self.slave, freshId + 1)
  let masterIpsMethod : BoundMethod := { receiverId := masterReceiver.2, funcName := "ips" }
  let slaveIpsMethod : BoundMethod := { receiverId := slaveReceiver.2, funcName := "ips" }
  decide (masterIpsMethod ≠ slaveIpsMethod)

/-- Concrete state-machine model of the external MySQL server described in
the external-interfaces section of the design: which databases and tables
exist, the rows of the ScalrValues table, the result set the cursor holds
after a SELECT, and the trace of successfully executed statements. -/
structure MySQLState where
  databases : List String
  tables : List String
  rows : List String
  resultSet : List (List String)
  trace : List Statement
deriving Repr, DecidableEq

/-- Execution of one statement against the model server: the CREATE
statements have if-not-exists semantics and never fail; USE fails with
status code 1049 when the ScalrTest database is absent; SELECT loads the
rows into the result set as one-column tuples; INSERT appends a row; COMMIT
is a no-op.  Every successful statement is appended to the trace. -/
def MySQLState.exec (s : MySQLState) (st : Statement) : Except OperationalErr MySQLState :=
  match st with
  | Statement.createDatabase =>
      Except.ok { s with
        databases := if "ScalrTest" ∈ s.databases then s.databases
                     else s.databases ++ ["ScalrTest"],
        trace := s.trace ++ [st] }
  | Statement.useScalrTest =>
      if "ScalrTest" ∈ s.databases then
        Except.ok { s with trace := s.trace ++ [st] }
      else
        Except.error { code := MYSQL_ERROR_CODE_UNKNOWN_DB,
                       msg := "Unknown database ScalrTest" }
  | Statement.createTable _ =>
      Except.ok { s with
        tables := if "ScalrValues" ∈ s.tables then s.tables
                  else s.tables ++ ["ScalrValues"],
        trace := s.trace ++ [st] }
  | Statement.selectValues =>
      Except.ok { s with resultSet := s.rows.map (fun v => [v]), trace := s.trace ++ [st] }
  | Statement.insertValue v =>
      Except.ok { s with rows := s.rows ++ [v], trace := s.trace ++ [st] }
  | Statement.commit =>
      Except.ok { s with trace := s.trace ++ [st] }

/-- The model MySQL client: connecting always succeeds and hands over the
given server state; statements run through MySQLState.exec; fetchall reads
the held result set. -/
def modelClient (init : MySQLState) : MySQLClient MySQLState :=
  { connect := fun _ _ _ => Except.ok init
    execute := MySQLState.exec
    fetchall := fun s => s.resultSet }

/-- A server state with nothing provisioned. -/
def emptyState : MySQLState :=
  { databases := [], tables := [], rows := [], resultSet := [], trace := [] }

/-- The state the model reaches after the master-role provisioning of
get_cursor has run once from emptyState. -/
def provisionedState : MySQLState :=
  { databases := ["ScalrTest"], tables := ["ScalrValues"], rows := [], resultSet := [],
    trace := [Statement.createDatabase, Statement.useScalrTest,
              Statement.createTable VALUE_LENGTH] }

/-- A replica-role descriptor used in concrete evaluations. -/
def slaveDesc : DBConnectionInformation :=
  { hostname := "db-slave", username := "u", password := "p", master := false }

/-- A master-role descriptor used in concrete evaluations. -/
def masterDesc : DBConnectionInformation :=
  { hostname := "db-master", username := "u", password := "p", master := true }

/-- A fully loaded configuration whose primary and replica hostnames are
both the same host "a". -/
def aaCi : ConnectionInfo :=
  { username := "u", password := "p", masterHost := "a", slaveHost := "a" }

/-- A DNS oracle under which every hostname resolves to the same singleton
address set. -/
def dnsSame : DnsOracle := fun _ => Except.ok ["10.0.0.1"]

/-- A DNS oracle where host "a" resolves to two addresses given in unsorted
order and every other hostname fails to resolve. -/
def dnsEx : DnsOracle := fun h =>
  if h = "a" then Except.ok ["10.0.0.2", "10.0.0.1"]
  else Except.error { errno := -2, strerror := "Name or service not known" }

/-- A client whose connection attempt always fails with the given status
code. -/
def failClient (code : Nat) : MySQLClient Unit :=
  { connect := fun _ _ _ => Except.error { code := code, msg := "connect failed" }
    execute := fun _ _ => Except.ok ()
    fetchall := fun _ => [] }

/-- A client that connects fine but loses the connection on the USE
statement with status code 2013, an operational failure that is neither
host-unreachable, nor access-denied, nor unknown-database. -/
def lostClient : MySQLClient Unit :=
  { connect := fun _ _ _ => Except.ok ()
    execute := fun _ st =>
      if st = Statement.useScalrTest then
        Except.error { code := 2013, msg := "Lost connection to MySQL server" }
      else Except.ok ()
    fetchall := fun _ => [] }

/-- A client that connects and provisions fine but fails the SELECT with
status code 1030, an operational failure other than unknown-database. -/
def badSelectClient : MySQLClient Unit :=
  { connect := fun _ _ _ => Except.ok ()
    execute := fun _ st =>
      if st = Statement.selectValues then
        Except.error { code := 1030, msg := "Got error from storage engine" }
      else Except.ok ()
    fetchall := fun _ => [] }

/-- A configuration source with only the password entry missing. -/
def sourceNoPassword : String → Option String := fun k =>
  if k = "mysql-password" then none else some " x "

/-- A fully populated configuration source with whitespace around the
values. -/
def sourceFull : String → Option String := fun k =>
  if k = "mysql-username" then some " user \n"
  else if k = "mysql-password" then some "pw"
  else if k = "mysql-master" then some "db-master\n"
  else if k = "mysql-slave" then some "db-slave\n"
  else none

/-- A provisioned server state holding two values. -/
def dbWithData : MySQLState :=
  { databases := ["ScalrTest"], tables := ["ScalrValues"], rows := ["alpha", "beta"],
    resultSet := [], trace := [] }

/-- The state the model reaches after master-role provisioning has run twice
from emptyState: the schema is unchanged, only the trace grows. -/
def twiceState : MySQLState :=
  { provisionedState with trace := provisionedState.trace ++
      [Statement.createDatabase, Statement.useScalrTest, Statement.createTable VALUE_LENGTH] }

/-- Helper: on the model client a master-role get_cursor always succeeds and
performs exactly the if-not-exists provisioning updates, leaving rows and
result set untouched. -/
theorem model_get_cursor_master (s : MySQLState) (self : DBConnectionInformation)
    (hm : self.master = true) :
    DBConnectionInformation.get_cursor (modelClient s) self =
      Except.ok
        { databases := if "ScalrTest" ∈ s.databases then s.databases
                       else s.databases ++ ["ScalrTest"],
          tables := if "ScalrValues" ∈ s.tables then s.tables
                    else s.tables ++ ["ScalrValues"],
          rows := s.rows, resultSet := s.resultSet,
          trace := s.trace ++ [Statement.createDatabase, Statement.useScalrTest,
                               Statement.createTable VALUE_LENGTH] } := by
  by_cases hdb : "ScalrTest" ∈ s.databases <;>
    by_cases htb : "ScalrValues" ∈ s.tables <;>
      simp [DBConnectionInformation.get_cursor, modelClient, MySQLState.exec, hm, hdb, htb,
        List.mem_append]

/-- Helper: on the model client a replica-role get_cursor with the database
present only selects it, appending a lone USE to the trace. -/
theorem model_get_cursor_slave (s : MySQLState) (self : DBConnectionInformation)
    (hm : self.master = false) (hdb : "ScalrTest" ∈ s.databases) :
    DBConnectionInformation.get_cursor (modelClient s) self =
      Except.ok { s with trace := s.trace ++ [Statement.useScalrTest] } := by
  simp [DBConnectionInformation.get_cursor, modelClient, MySQLState.exec, hm, hdb]

/-- C1: evaluation at the failing input.  With the primary and replica
hostnames both configured as "a", the two descriptors produce identical ips
output under a DNS oracle resolving every name to the same address set —
yet replicating returns true, because line 192 of the source compares the
two bound-method objects master.ips and slave.ips of two freshly
constructed descriptor objects (never equal) instead of calling ips.  The
claim requires false whenever the resolved address sets coincide. -/
theorem replicating_true_despite_equal_address_sets :
    ConnectionInfo.replicating aaCi 0 = true
    ∧ DBConnectionInformation.ips dnsSame (ConnectionInfo.master aaCi) =
        DBConnectionInformation.ips dnsSame (ConnectionInfo.slave aaCi) := by
  exact ⟨by decide, by decide⟩

/-- C4: the configuration resolver is all-or-nothing.  If any of the four
required entries is absent the construction fails with NoConnectionInfo;
with all four present it succeeds with the whitespace-stripped values, so a
partially configured resolver is never produced. -/
theorem config_resolution_all_or_nothing (source : String → Option String) :
    ((source "mysql-username" = none ∨ source "mysql-password" = none ∨
      source "mysql-master" = none ∨ source "mysql-slave" = none) →
      ConnectionInfo.init source = Except.error NoConnectionInfo.mk)
    ∧ (∀ u p m s, source "mysql-username" = some u → source "mysql-password" = some p →
        source "mysql-master" = some m → source "mysql-slave" = some s →
        ConnectionInfo.init source = Except.ok
          { username := u.trim, password := p.trim,
            masterHost := m.trim, slaveHost := s.trim }) := by
  refine ⟨fun h => ?_, fun u p m s hu hp hm hs => ?_⟩
  · cases h1 : source "mysql-username" <;> cases h2 : source "mysql-password" <;>
      cases h3 : source "mysql-master" <;> cases h4 : source "mysql-slave" <;>
        simp_all [ConnectionInfo.init]
  · simp [ConnectionInfo.init, hu, hp, hm, hs]

/-- Witness for C4: a source missing only the password entry fails as a
whole, and the fully populated source succeeds with stripped values. -/
theorem config_resolution_all_or_nothing_witness :
    ConnectionInfo.init sourceNoPassword = Except.error NoConnectionInfo.mk
    ∧ ConnectionInfo.init sourceFull = Except.ok
        { username := " user \n".trim, password := "pw".trim,
          masterHost := "db-master\n".trim, slaveHost := "db-slave\n".trim } :=
  ⟨(config_resolution_all_or_nothing sourceNoPassword).1 (Or.inr (Or.inl (by decide))),
   (config_resolution_all_or_nothing sourceFull).2 " user \n" "pw" "db-master\n" "db-slave\n"
     (by decide) (by decide) (by decide) (by decide)⟩

/-- C8: for any fully constructed resolver state, master() yields a
descriptor with the master role flag and the configured primary hostname,
slave() yields one with the replica role flag and the configured replica
hostname, and both carry the shared username and password. -/
theorem master_slave_descriptor_roles (ci : ConnectionInfo) :
    (ci.master).master = true ∧ (ci.master).hostname = ci.masterHost
    ∧ (ci.slave).master = false ∧ (ci.slave).hostname = ci.slaveHost
    ∧ (ci.master).username = ci.username ∧ (ci.slave).username = ci.username
    ∧ (ci.master).password = ci.password ∧ (ci.slave).password = ci.password :=
  ⟨rfl, rfl, rfl, rfl, rfl, rfl, rfl, rfl⟩

/-- C9: ips is total.  On successful resolution it returns the comma-join of
the sorted address list — so its output is determined by the resolved set:
any two resolutions that are permutations of each other give equal output —
and on a resolution failure it returns the diagnostic string beginning with
"Resolution error:" instead of raising. -/
theorem ips_total_and_deterministic (dns : DnsOracle) (self : DBConnectionInformation) :
    (∀ addrs, dns self.hostname = Except.ok addrs →
      self.ips dns = String.intercalate "," (List.insertionSort strLe addrs)
      ∧ ∀ (dns2 : DnsOracle) (addrs2 : List String), dns2 self.hostname = Except.ok addrs2 →
          addrs.Perm addrs2 → self.ips dns = self.ips dns2)
    ∧ (∀ e, dns self.hostname = Except.error e →
        self.ips dns = "Resolution error: " ++ e.strerror) := by
  refine ⟨fun addrs h => ⟨?_, fun dns2 addrs2 h2 hperm => ?_⟩, fun e h => ?_⟩
  · simp [DBConnectionInformation.ips, h]
  · have hsort : List.insertionSort strLe addrs = List.insertionSort strLe addrs2 :=
      List.eq_of_perm_of_sorted
        (((List.perm_insertionSort _ addrs).trans hperm).trans
          (List.perm_insertionSort _ addrs2).symm)
        (List.sorted_insertionSort _ addrs) (List.sorted_insertionSort _ addrs2)
    simp [DBConnectionInformation.ips, h, h2, hsort]
  · simp [DBConnectionInformation.ips, h]

/-- Witness for C9: under the concrete oracle dnsEx, host "a" resolving to
two addresses listed out of order yields the sorted comma-join, and host
"b" failing to resolve yields the diagnostic string. -/
theorem ips_total_and_deterministic_witness :
    DBConnectionInformation.ips dnsEx
      { hostname := "a", username := "u", password := "p", master := false } =
      "10.0.0.1,10.0.0.2"
    ∧ DBConnectionInformation.ips dnsEx
      { hostname := "b", username := "u", password := "p", master := false } =
      "Resolution error: Name or service not known" :=
  ⟨((ips_total_and_deterministic dnsEx
      { hostname := "a", username := "u", password := "p", master := false }).1
      ["10.0.0.2", "10.0.0.1"] (by decide)).1.trans (by decide),
   (ips_total_and_deterministic dnsEx
      { hostname := "b", username := "u", password := "p", master := false }).2
      { errno := -2, strerror := "Name or service not known" } (by decide)⟩
/-- C2 counterexample: on a replica descriptor whose server lacks the
ScalrTest database, get_cursor terminates with the raw operational error
1049 raised by the post-connect USE statement — an error carried by the
operational constructor, not by the classified noConnectionEstablished
constructor and not a usable handle — so the claim that get_cursor never
terminates with an unclassified error fails. -/
theorem get_cursor_unclassified_on_use :
    DBConnectionInformation.get_cursor (modelClient emptyState) slaveDesc =
      Except.error (DBError.operational
        { code := MYSQL_ERROR_CODE_UNKNOWN_DB, msg := "Unknown database ScalrTest" }) := rfl

/-- C2 amended: for every client outcome and every descriptor, get_cursor
either returns a usable cursor, or — exactly when the underlying connect
fails — raises a single NoConnectionEstablished carrying the descriptor and
one of the three classified messages, or — after a successful connect —
propagates a raw unclassified operational error from a post-connect schema
statement. -/
theorem get_cursor_outcome_trichotomy {σ : Type} (cl : MySQLClient σ)
    (self : DBConnectionInformation) :
    (∃ cur, self.get_cursor cl = Except.ok cur)
    ∨ (∃ e msg, cl.connect self.hostname self.username self.password = Except.error e
        ∧ self.get_cursor cl = Except.error (DBError.noConnectionEstablished self msg)
        ∧ (msg = "The host [" ++ self.hostname ++ "] does not exist."
           ∨ msg = "The username [" ++ self.username ++ "] or password ["
               ++ self.password ++ "] is incorrect."
           ∨ msg = "An error occured: Code " ++ toString e.code))
    ∨ ((∃ conn, cl.connect self.hostname self.username self.password = Except.ok conn)
        ∧ ∃ e, self.get_cursor cl = Except.error (DBError.operational e)) := by
  rcases hc : cl.connect self.hostname self.username self.password with e | conn
  · right; left
    by_cases h5 : e.code = MYSQL_ERROR_CODE_NO_HOST
    · refine ⟨e, _, rfl, ?_, Or.inl rfl⟩
      simp [DBConnectionInformation.get_cursor, hc, h5]
    · by_cases h6 : e.code = MYSQL_ERROR_CODE_ACCESS_DENIED
      · refine ⟨e, _, rfl, ?_, Or.inr (Or.inl rfl)⟩
        simp [DBConnectionInformation.get_cursor, hc, h5, h6,
          MYSQL_ERROR_CODE_NO_HOST, MYSQL_ERROR_CODE_ACCESS_DENIED]
      · refine ⟨e, _, rfl, ?_, Or.inr (Or.inr rfl)⟩
        simp [DBConnectionInformation.get_cursor, hc, h5, h6]
  · cases hm : self.master
    · rcases h1 : cl.execute conn Statement.useScalrTest with e1 | c1
      · right; right
        exact ⟨⟨conn, rfl⟩, e1, by simp [DBConnectionInformation.get_cursor, hc, hm, h1]⟩
      · left
        exact ⟨c1, by simp [DBConnectionInformation.get_cursor, hc, hm, h1]⟩
    · rcases h1 : cl.execute conn Statement.createDatabase with e1 | c1
      · right; right
        exact ⟨⟨conn, rfl⟩, e1, by simp [DBConnectionInformation.get_cursor, hc, hm, h1]⟩
      · rcases h2 : cl.execute c1 Statement.useScalrTest with e2 | c2
        · right; right
          exact ⟨⟨conn, rfl⟩, e2, by simp [DBConnectionInformation.get_cursor, hc, hm, h1, h2]⟩
        · rcases h3 : cl.execute c2 (Statement.createTable VALUE_LENGTH) with e3 | c3
          · right; right
            exact ⟨⟨conn, rfl⟩, e3,
              by simp [DBConnectionInformation.get_cursor, hc, hm, h1, h2, h3]⟩
          · left
            exact ⟨c3, by simp [DBConnectionInformation.get_cursor, hc, hm, h1, h2, h3]⟩

/-- C3: a connect-level failure is classified by its status code, tested in
the order of the source: code 2005 yields the host-unreachable message,
otherwise code 1045 yields the authentication-rejected message, and any
other code yields the catch-all message carrying the raw status code. -/
theorem connect_failure_classification {σ : Type} (cl : MySQLClient σ)
    (self : DBConnectionInformation) (e : OperationalErr)
    (h : cl.connect self.hostname self.username self.password = Except.error e) :
    (e.code = MYSQL_ERROR_CODE_NO_HOST →
      self.get_cursor cl = Except.error (DBError.noConnectionEstablished self
        ("The host [" ++ self.hostname ++ "] does not exist.")))
    ∧ (e.code ≠ MYSQL_ERROR_CODE_NO_HOST → e.code = MYSQL_ERROR_CODE_ACCESS_DENIED →
      self.get_cursor cl = Except.error (DBError.noConnectionEstablished self
        ("The username [" ++ self.username ++ "] or password ["
          ++ self.password ++ "] is incorrect.")))
    ∧ (e.code ≠ MYSQL_ERROR_CODE_NO_HOST → e.code ≠ MYSQL_ERROR_CODE_ACCESS_DENIED →
      self.get_cursor cl = Except.error (DBError.noConnectionEstablished self
        ("An error occured: Code " ++ toString e.code))) := by
  refine ⟨fun h1 => ?_, fun h1 h2 => ?_, fun h1 h2 => ?_⟩
  · simp [DBConnectionInformation.get_cursor, h, h1]
  · simp [DBConnectionInformation.get_cursor, h, h1, h2,
      MYSQL_ERROR_CODE_NO_HOST, MYSQL_ERROR_CODE_ACCESS_DENIED]
  · simp [DBConnectionInformation.get_cursor, h, h1, h2]

/-- Witness for C3: a client rejecting the connection with status code 1045
makes get_cursor raise the authentication-rejected message; with code 9999
it raises the catch-all message carrying the raw code. -/
theorem connect_failure_classification_witness :
    slaveDesc.get_cursor (failClient 1045) =
      Except.error (DBError.noConnectionEstablished slaveDesc
        "The username [u] or password [p] is incorrect.")
    ∧ slaveDesc.get_cursor (failClient 9999) =
      Except.error (DBError.noConnectionEstablished slaveDesc
        "An error occured: Code 9999") :=
  ⟨(connect_failure_classification (failClient 1045) slaveDesc
      { code := 1045, msg := "connect failed" } rfl).2.1 (by decide) rfl,
   (connect_failure_classification (failClient 9999) slaveDesc
      { code := 9999, msg := "connect failed" } rfl).2.2 (by decide) (by decide)⟩

/-- Helper: extracting column 0 of one-column rows gives back the values. -/
theorem map_head_singleton (l : List String) :
    List.map ((fun (row : List String) => row.head?.getD "") ∘ fun v => [v]) l = l := by
  induction l with
  | nil => rfl
  | cons a t ih => exact congrArg (List.cons a) ih

/-- C5: unknown-database tolerance of get_values.  If the read attempt — the
cursor acquisition or the SELECT — fails with operational status code 1049
(database never provisioned), get_values returns the empty sequence instead
of an error; against a provisioned model server (or a master-role
descriptor, which provisions on connect) it returns all stored values. -/
theorem get_values_unknown_db_tolerance :
    (∀ (σ : Type) (cl : MySQLClient σ) (self : DBConnectionInformation) (msg : String),
      self.get_cursor cl = Except.error (DBError.operational
        { code := MYSQL_ERROR_CODE_UNKNOWN_DB, msg := msg }) →
      self.get_values cl = Except.ok [])
    ∧ (∀ (σ : Type) (cl : MySQLClient σ) (self : DBConnectionInformation) (cur : σ)
        (msg : String),
      self.get_cursor cl = Except.ok cur →
      cl.execute cur Statement.selectValues = Except.error
        { code := MYSQL_ERROR_CODE_UNKNOWN_DB, msg := msg } →
      self.get_values cl = Except.ok [])
    ∧ (∀ (s : MySQLState) (self : DBConnectionInformation),
      ("ScalrTest" ∈ s.databases ∨ self.master = true) →
      DBConnectionInformation.get_values (modelClient s) self = Except.ok s.rows) := by
  refine ⟨fun σ cl self msg h => ?_, fun σ cl self cur msg h hsel => ?_,
    fun s self h => ?_⟩
  · simp [DBConnectionInformation.get_values, h]
  · simp [DBConnectionInformation.get_values, h, hsel]
  · cases hm : self.master
    · have hdb : "ScalrTest" ∈ s.databases := by
        rcases h with hdb | hmast
        · exact hdb
        · rw [hm] at hmast; exact absurd hmast (by simp)
      rw [DBConnectionInformation.get_values]
      rw [model_get_cursor_slave s self hm hdb]
      simp [modelClient, MySQLState.exec, List.map_map]
      exact map_head_singleton s.rows
    · rw [DBConnectionInformation.get_values]
      rw [model_get_cursor_master s self hm]
      simp [modelClient, MySQLState.exec, List.map_map]
      exact map_head_singleton s.rows

/-- Witness for C5: on an unprovisioned model server a replica read returns
the empty sequence, and on a provisioned server holding two values it
returns exactly those values. -/
theorem get_values_unknown_db_tolerance_witness :
    DBConnectionInformation.get_values (modelClient emptyState) slaveDesc = Except.ok []
    ∧ DBConnectionInformation.get_values (modelClient dbWithData) slaveDesc =
        Except.ok ["alpha", "beta"] :=
  ⟨get_values_unknown_db_tolerance.1 MySQLState (modelClient emptyState) slaveDesc
      "Unknown database ScalrTest" (by decide),
   get_values_unknown_db_tolerance.2.2 dbWithData slaveDesc (Or.inl (by decide))⟩

/-- C6: insert stores the prefix of at most VALUE_LENGTH = 200 characters of
the given value — a value of at most 200 characters is stored unchanged, a
longer one is cut to its first 200 characters — and the INSERT statement is
immediately followed by COMMIT in the statement trace. -/
theorem insert_truncates_then_commits (s : MySQLState) (v : String) :
    (DBConnectionInformation.insert (modelClient s) masterDesc v).map MySQLState.rows =
      Except.ok (s.rows ++ [v.take VALUE_LENGTH])
    ∧ (DBConnectionInformation.insert (modelClient s) masterDesc v).map MySQLState.trace =
      Except.ok (s.trace ++ [Statement.createDatabase, Statement.useScalrTest,
        Statement.createTable VALUE_LENGTH, Statement.insertValue (v.take VALUE_LENGTH),
        Statement.commit])
    ∧ (v.length ≤ VALUE_LENGTH → v.take VALUE_LENGTH = v)
    ∧ (v.take VALUE_LENGTH).length = min VALUE_LENGTH v.length := by
  refine ⟨?_, ?_, fun hlen => ?_, ?_⟩
  · rw [DBConnectionInformation.insert, model_get_cursor_master s masterDesc rfl]
    simp [modelClient, MySQLState.exec, Except.map]
  · rw [DBConnectionInformation.insert, model_get_cursor_master s masterDesc rfl]
    simp [modelClient, MySQLState.exec, Except.map]
  · rw [String.take_eq]
    exact congrArg String.mk (List.take_of_length_le hlen)
  · rw [String.take_eq]
    exact List.length_take VALUE_LENGTH v.1

/-- Witness for C6: inserting the five-character value "hello" stores it
unchanged with the commit right after the insert, and a value of 500
characters is stored as exactly its first 200 characters. -/
theorem insert_truncates_then_commits_witness :
    (DBConnectionInformation.insert (modelClient emptyState) masterDesc "hello").map
      MySQLState.rows = Except.ok ["hello"]
    ∧ (DBConnectionInformation.insert (modelClient emptyState) masterDesc "hello").map
      MySQLState.trace = Except.ok [Statement.createDatabase, Statement.useScalrTest,
        Statement.createTable VALUE_LENGTH, Statement.insertValue "hello", Statement.commit]
    ∧ (String.mk (List.replicate 500 'x')).take VALUE_LENGTH =
        String.mk (List.replicate 200 'x') :=
  ⟨((insert_truncates_then_commits emptyState "hello").1).trans
      (by rw [(insert_truncates_then_commits emptyState "hello").2.2.1 (by decide)]; rfl),
   ((insert_truncates_then_commits emptyState "hello").2.1).trans
      (by rw [(insert_truncates_then_commits emptyState "hello").2.2.1 (by decide)]; rfl),
   by rw [String.take_eq]; exact congrArg String.mk (by decide)⟩

/-- C7: on the model server, a master-role get_cursor issues exactly the
three provisioning statements (create database, select it, create table),
a replica-role get_cursor with the database present issues only USE and no
creation statement, and running master provisioning a second time leaves
databases, tables and rows unchanged (create-if-not-exists idempotence). -/
theorem provisioning_master_only_idempotent (s : MySQLState) :
    ((DBConnectionInformation.get_cursor (modelClient s) masterDesc).map MySQLState.trace =
      Except.ok (s.trace ++ [Statement.createDatabase, Statement.useScalrTest,
        Statement.createTable VALUE_LENGTH]))
    ∧ ("ScalrTest" ∈ s.databases →
      (DBConnectionInformation.get_cursor (modelClient s) slaveDesc).map MySQLState.trace =
        Except.ok (s.trace ++ [Statement.useScalrTest]))
    ∧ (∀ s1 s2, DBConnectionInformation.get_cursor (modelClient s) masterDesc = Except.ok s1 →
        DBConnectionInformation.get_cursor (modelClient s1) masterDesc = Except.ok s2 →
        s2.databases = s1.databases ∧ s2.tables = s1.tables ∧ s2.rows = s1.rows) := by
  refine ⟨?_, fun hdb => ?_, fun s1 s2 h1 h2 => ?_⟩
  · rw [model_get_cursor_master s masterDesc rfl]
    rfl
  · rw [model_get_cursor_slave s slaveDesc rfl hdb]
    rfl
  · rw [model_get_cursor_master s masterDesc rfl] at h1
    have e1 := Except.ok.inj h1
    rw [model_get_cursor_master s1 masterDesc rfl] at h2
    have e2 := Except.ok.inj h2
    have hdb1 : "ScalrTest" ∈ s1.databases := by
      rw [← e1]
      by_cases hdb : "ScalrTest" ∈ s.databases <;> simp [hdb]
    have htb1 : "ScalrValues" ∈ s1.tables := by
      rw [← e1]
      by_cases htb : "ScalrValues" ∈ s.tables <;> simp [htb]
    rw [← e2]
    simp [hdb1, htb1]

/-- Witness for C7: from the empty server, provisioning reaches
provisionedState; a second provisioning run reaches twiceState, whose
databases, tables and rows coincide with provisionedState; a replica
get_cursor against the provisioned server appends only USE. -/
theorem provisioning_master_only_idempotent_witness :
    ((DBConnectionInformation.get_cursor (modelClient provisionedState) slaveDesc).map
      MySQLState.trace = Except.ok (provisionedState.trace ++ [Statement.useScalrTest]))
    ∧ (twiceState.databases = provisionedState.databases
        ∧ twiceState.tables = provisionedState.tables
        ∧ twiceState.rows = provisionedState.rows) :=
  ⟨(provisioning_master_only_idempotent provisionedState).2.1 (by decide),
   (provisioning_master_only_idempotent emptyState).2.2 provisionedState twiceState
     (by decide) (by decide)⟩

/-- C10: get_values swallows only operational status code 1049.  Any other
operational failure — from cursor acquisition or from the SELECT — is
re-raised to the caller unchanged, and a classified NoConnectionEstablished
from get_cursor likewise propagates untouched; neither is converted to an
empty result. -/
theorem get_values_reraises_other_errors {σ : Type} (cl : MySQLClient σ)
    (self : DBConnectionInformation) :
    (∀ e, e.code ≠ MYSQL_ERROR_CODE_UNKNOWN_DB →
      self.get_cursor cl = Except.error (DBError.operational e) →
      self.get_values cl = Except.error (DBError.operational e))
    ∧ (∀ cur e, self.get_cursor cl = Except.ok cur →
        cl.execute cur Statement.selectValues = Except.error e →
        e.code ≠ MYSQL_ERROR_CODE_UNKNOWN_DB →
        self.get_values cl = Except.error (DBError.operational e))
    ∧ (∀ info msg, self.get_cursor cl = Except.error
        (DBError.noConnectionEstablished info msg) →
        self.get_values cl = Except.error (DBError.noConnectionEstablished info msg)) := by
  refine ⟨fun e hne h => ?_, fun cur e h hsel hne => ?_, fun info msg h => ?_⟩
  · simp [DBConnectionInformation.get_values, h, hne]
  · simp [DBConnectionInformation.get_values, h, hsel, hne]
  · simp [DBConnectionInformation.get_values, h]

/-- Witness for C10: a lost-connection failure (code 2013) during cursor
acquisition and a storage-engine failure (code 1030) on the SELECT are both
re-raised unchanged by get_values. -/
theorem get_values_reraises_other_errors_witness :
    slaveDesc.get_values lostClient = Except.error (DBError.operational
      { code := 2013, msg := "Lost connection to MySQL server" })
    ∧ slaveDesc.get_values badSelectClient = Except.error (DBError.operational
      { code := 1030, msg := "Got error from storage engine" }) :=
  ⟨(get_values_reraises_other_errors lostClient slaveDesc).1
      { code := 2013, msg := "Lost connection to MySQL server" } (by decide) (by decide),
   (get_values_reraises_other_errors badSelectClient slaveDesc).2.1 ()
      { code := 1030, msg := "Got error from storage engine" } (by decide) (by decide)
      (by decide)⟩

end Scalr
